import Mathlib

/-!
Shallow embedding of src/gst-rtsp-launch.c (brentr/gst-rtsp-launch).

C strings are modelled as List Char, with the end of the list standing for
the NUL terminator; an embedded NUL is therefore not representable, and
claims that quantify over characters carry the hypothesis that the
character is not NUL where this matters.  Reading the terminator (as the C
code does with cursor[3] or *cursor) is modelled with List.headD using
Char.ofNat 0 as the default.
-/

/-- toupper(c) == u for an upper-case ASCII letter u, in the C locale
(the source only compares toupper output against 'S', 'A', 'V', 'P', 'F'). -/
def ueq (c u : Char) : Bool :=
  decide (c.toNat = u.toNat ∨ c.toNat = u.toNat + 32)

/-- ctype isalnum in the C locale (digits, upper- and lower-case letters). -/
def isalnumC (c : Char) : Bool :=
  decide ((48 ≤ c.toNat ∧ c.toNat ≤ 57) ∨ (65 ≤ c.toNat ∧ c.toNat ≤ 90) ∨
    (97 ≤ c.toNat ∧ c.toNat ≤ 122))

/-- ctype isspace in the C locale. -/
def isspaceC (c : Char) : Bool :=
  decide (c.toNat = 32 ∨ (9 ≤ c.toNat ∧ c.toNat ≤ 13))

/-- ctype isdigit. -/
def isdigitC (c : Char) : Bool :=
  decide (48 ≤ c.toNat ∧ c.toNat ≤ 57)

/-- GstRTSPProfile flag (gst/rtsp/gstrtsptransport.h). -/
def GST_RTSP_PROFILE_AVP : Nat := 1

/-- GstRTSPProfile flag. -/
def GST_RTSP_PROFILE_SAVP : Nat := 2

/-- GstRTSPProfile flag. -/
def GST_RTSP_PROFILE_AVPF : Nat := 4

/-- GstRTSPProfile flag. -/
def GST_RTSP_PROFILE_SAVPF : Nat := 8

/-- strncasecmp(cursor, "AVP", 3) == 0 (gst-rtsp-launch.c line 65): on
success returns the remainder after the three matched characters.  A list
shorter than three characters never matches, exactly as the NUL terminator
makes strncasecmp return nonzero. -/
def matchAVP : List Char → Option (List Char)
  | a :: v :: p :: rest =>
    if ueq a 'A' && ueq v 'V' && ueq p 'P' then some rest else none
  | _ => none

/-- parseProfile (gst-rtsp-launch.c lines 54-73).  Returns the recognised
profile flag (0 when unrecognised, mirroring the caller's check of the
profile output parameter) together with the cursor position after the
token.  The C code's cursor==base comparisons are decided by whether the
optional leading 'S' was consumed, which is exactly the condition of the
outer if below; the post-increment in the 'F' branch makes both secure and
plain feedback tokens return cursor+4 from the start of "AVP". -/
def parseProfile (base : List Char) : Nat × List Char :=
  if ueq (base.headD (Char.ofNat 0)) 'S' then
    match matchAVP base.tail with
    | none => (0, base.tail)
    | some rest =>
      if ueq (rest.headD (Char.ofNat 0)) 'F' then
        (GST_RTSP_PROFILE_SAVPF, rest.tail)
      else
        (GST_RTSP_PROFILE_SAVP, rest)
  else
    match matchAVP base with
    | none => (0, base)
    | some rest =>
      if ueq (rest.headD (Char.ofNat 0)) 'F' then
        (GST_RTSP_PROFILE_AVPF, rest.tail)
      else
        (GST_RTSP_PROFILE_AVP, rest)

/-- The profile while-loop of main (gst-rtsp-launch.c lines 152-169),
written with explicit fuel so that it is structurally recursive and
computable by the kernel.  Each continuing iteration consumes at least
four characters (a token of length at least three plus one delimiter), so
fuel equal to the length of the string is always sufficient; the
fuel-exhausted arm is unreachable under that discipline (see
profileLoopAux_fuel). -/
def profileLoopAux : Nat → List Char → Nat → Option Nat
  | _, [], mask => some mask
  | 0, _ :: _, _ => none
  | n + 1, c :: cs, mask =>
    if (parseProfile (c :: cs)).1 = 0 then none
    else
      match (parseProfile (c :: cs)).2 with
      | [] => some (mask ||| (parseProfile (c :: cs)).1)
      | d :: r2 =>
        if isalnumC d then none
        else profileLoopAux n r2 (mask ||| (parseProfile (c :: cs)).1)

/-- The profile loop at its natural fuel. -/
def profileLoop (cursor : List Char) (mask : Nat) : Option Nat :=
  profileLoopAux cursor.length cursor mask

/-- Result of the whole profiles block when the profiles option is
present: some mask on success (the mask then passed to
gst_rtsp_media_factory_set_profiles), none on the "Unknown RTSP profiles"
failure (exit code 3). -/
def parseProfiles (s : List Char) : Option Nat :=
  profileLoop s 0

/-- What the loop does after a token has been accepted and the cursor
stands at tail: stop successfully at the terminator, fail on an
alphanumeric character, otherwise skip one delimiter and continue. -/
def afterTokens (tail : List Char) (m : Nat) : Option Nat :=
  match tail with
  | [] => some m
  | d :: r2 => if isalnumC d then none else profileLoop r2 m

/-- The four profile tokens, case-insensitively, together with the flag
each one produces: a leading S selects the secure pair, a trailing F the
feedback pair. -/
def spellsToken (t : List Char) (f : Nat) : Bool :=
  match t with
  | [a, v, p] => ueq a 'A' && ueq v 'V' && ueq p 'P' && f == GST_RTSP_PROFILE_AVP
  | [a, v, p, q] =>
    (ueq a 'A' && ueq v 'V' && ueq p 'P' && ueq q 'F' && f == GST_RTSP_PROFILE_AVPF) ||
    (ueq a 'S' && ueq v 'A' && ueq p 'V' && ueq q 'P' && f == GST_RTSP_PROFILE_SAVP)
  | [s, a, v, p, q] =>
    ueq s 'S' && ueq a 'A' && ueq v 'V' && ueq p 'P' && ueq q 'F' && f == GST_RTSP_PROFILE_SAVPF
  | _ => false

/-- A profile spec assembled from a first token and a list of
(delimiter, token, flag) groups. -/
def specJoin (t0 : List Char) (rest : List (Char × List Char × Nat)) : List Char :=
  t0 ++ rest.foldr (fun q acc => q.1 :: q.2.1 ++ acc) []

/-- A profile spec assembled from (token, flag, delimiter) groups followed
by an arbitrary remainder u. -/
def preJoin (pre : List (List Char × Nat × Char)) (u : List Char) : List Char :=
  pre.foldr (fun q acc => q.1 ++ q.2.2 :: acc) u

/-- Hexadecimal digit value, used by strtoull for every base up to 16. -/
def hexVal (c : Char) : Option Nat :=
  if 48 ≤ c.toNat ∧ c.toNat ≤ 57 then some (c.toNat - 48)
  else if 97 ≤ c.toNat ∧ c.toNat ≤ 102 then some (c.toNat - 87)
  else if 65 ≤ c.toNat ∧ c.toNat ≤ 70 then some (c.toNat - 55)
  else none

/-- The digit-accumulation loop of strtoull: consumes digits of the given
base, returning the unbounded accumulator, the number of digits consumed
and the remainder of the string. -/
def digitsLoop (base : Nat) : List Char → Nat → Nat → Nat × Nat × List Char
  | [], acc, n => (acc, n, [])
  | c :: cs, acc, n =>
    match hexVal c with
    | some d =>
      if d < base then digitsLoop base cs (acc * base + d) (n + 1)
      else (acc, n, c :: cs)
    | none => (acc, n, c :: cs)

/-- 2^64, the modulus of guint64 / unsigned long long arithmetic. -/
def U64 : Nat := 2 ^ 64

/-- strtoull(s, &end, 0) as specified by C99 and implemented by glibc:
skip optional whitespace, an optional single sign, then with base 0 detect
a 0x/0X prefix (hexadecimal, only when a hexadecimal digit follows),
else a leading 0 (octal), else decimal.  Returns (value, digits consumed,
remainder at end).  When no digits are consumed end is reset to the start
of the string, encoded here by returning the original list as remainder.
On overflow the value saturates at ULLONG_MAX; a parsed minus sign negates
the value in unsigned (mod 2^64) arithmetic. -/
def strtoull0 (s : List Char) : Nat × Nat × List Char :=
  let s1 := s.dropWhile isspaceC
  let neg : Bool := s1.headD ' ' == '-'
  let s2 := if s1.headD ' ' == '-' || s1.headD ' ' == '+' then s1.tail else s1
  let hex : Bool :=
    s2.headD ' ' == '0' && (s2.tail.headD ' ' == 'x' || s2.tail.headD ' ' == 'X') &&
      (hexVal (s2.tail.tail.headD 'z')).isSome
  let base := if hex then 16 else if s2.headD ' ' == '0' then 8 else 10
  let s3 := if hex then s2.drop 2 else s2
  let r := digitsLoop base s3 0 0
  if r.2.1 = 0 then (0, 0, s)
  else
    (if U64 ≤ r.1 then U64 - 1
     else if neg then (U64 - r.1) % U64
     else r.1, r.2.1, r.2.2)

/-- The retransmission-time block of main (gst-rtsp-launch.c lines
173-179): strtoull with base 0, failing (exit code 4) when a character
remains at end (*end nonzero) or when no digits were consumed
(end == retransmitTime). -/
def parseRetransMs (s : List Char) : Option Nat :=
  let r := strtoull0 s
  if r.2.2 ≠ [] ∨ r.2.1 = 0 then none else some r.1

/-- GST_MSECOND: nanoseconds per millisecond, the fixed multiplier applied
to the parsed millisecond count (gst-rtsp-launch.c line 181). -/
def GST_MSECOND : Nat := 1000000

/-- Shorthand for String.toList, used for concrete inputs. -/
def chars (s : String) : List Char :=
  s.toList


/-- The media factory configuration accumulated by main: unset options are
none.  rtxTime holds gst_rtsp_media_factory_set_retransmission_time's
argument in nanoseconds (guint64). -/
structure Factory where
  profilesMask : Option Nat
  rtxTime : Option Nat
  launch : Option (List Char)
  shared : Bool
deriving DecidableEq, Repr

/-- Modelled from the spec: storing a non-unset retransmission duration on
the factory is what implicitly enables the retain-packets-for-
retransmission behaviour; there is no separately toggled flag in the
factory API used by this program. -/
def retainForRetransmission (f : Factory) : Bool :=
  f.rtxTime.isSome

/-- Observable steps of main, in program order (prints, object creation,
factory configuration calls, mounting, attaching, scheduling). -/
inductive Event where
  | banner : Event
  | serverCreated : Event
  | mountsObtained : Event
  | factoryCreated : Event
  | profilesSet : Nat → Event
  | retransmissionSet : Nat → Event
  | launchSet : List Char → Event
  | sharedSet : Bool → Event
  | pipelinePrinted : List Char → Event
  | factoryMounted : List Char → Event
  | attached : Event
  | reaperScheduled : Nat → Event
  | readyPrinted : List Char → Event
deriving DecidableEq, Repr

/-- The server state reached when main falls into g_main_loop_run. -/
structure ServerState where
  port : List Char
  mounts : List (List Char × Factory)
  readyMsg : List Char
  reaperIntervalSec : Nat
deriving DecidableEq, Repr

/-- Either the process returned with an exit code, or it is running the
main loop (from which the source program never returns). -/
inductive MainOutcome where
  | exited : Int → MainOutcome
  | running : ServerState → MainOutcome
deriving DecidableEq, Repr

/-- The session pool, a collection of sessions tagged with their expiry
times (owned by the external protocol library). -/
structure SessionPool where
  sessions : List (Nat × Nat)
deriving DecidableEq, Repr

/-- Modelled from the spec: gst_rtsp_session_pool_cleanup evicts every
session whose expiry time has elapsed at the moment of invocation. -/
def sessionPoolCleanup (now : Nat) (p : SessionPool) : SessionPool :=
  SessionPool.mk (p.sessions.filter (fun s => decide (now < s.2)))

/-- timeout (gst-rtsp-launch.c lines 93-103): fetch the server's session
pool, clean it up, and return TRUE so that GLib reschedules the source. -/
def timeout (now : Nat) (pool : SessionPool) : SessionPool × Bool :=
  (sessionPoolCleanup now pool, true)

/-- The inputs of one run of main: whether g_option_context_parse
succeeded, the option values it produced, argv[1], and whether
gst_rtsp_server_attach succeeds.  The --endpoint value is recorded in
endArg but, in the source, its storage slot in the GOptionEntry table is
written as &mount+1 — one pointer past the mount variable — so the parsed
value never reaches mount (an out-of-bounds store whose only defined
consequence for the modelled state is that mount keeps its initial
"/video"); runMain therefore never reads endArg. -/
structure Env where
  cliOk : Bool
  portArg : Option (List Char)
  endArg : Option (List Char)
  profArg : Option (List Char)
  rtxArg : Option (List Char)
  pipeline : Option (List Char)
  attachOk : Bool
deriving DecidableEq, Repr

/-- DEFAULT_RTSP_PORT. -/
def defaultPort : List Char :=
  chars "8554"

/-- "/" DEFAULT_ENDPOINT, the initial (and, by the &mount+1 slip, the
permanent) value of mount. -/
def defaultMount : List Char :=
  chars "/video"

/-- The readiness line printed at gst-rtsp-launch.c line 214:
"Stream ready at rtsp://127.0.0.1:%s%s" with port and mount. -/
def readyMsg (port mount : List Char) : List Char :=
  chars "Stream ready at rtsp://127.0.0.1:" ++ port ++ mount

/-- Lines 188-215 of main: set launch and shared on the factory, print the
pipeline, add the factory at mount, attach (exit 6 on failure), schedule
the 5-second session reaper, print the readiness message and run. -/
def stageMountAttach (env : Env) (port pipe : List Char) (fac : Factory)
    (tr : List Event) : List Event × MainOutcome :=
  let fac2 := Factory.mk fac.profilesMask fac.rtxTime (some pipe) true
  let tr2 := tr ++ [Event.launchSet pipe, Event.sharedSet true,
    Event.pipelinePrinted pipe, Event.factoryMounted defaultMount]
  if env.attachOk then
    (tr2 ++ [Event.attached, Event.reaperScheduled 5,
      Event.readyPrinted (readyMsg port defaultMount)],
     MainOutcome.running (ServerState.mk port [(defaultMount, fac2)]
       (readyMsg port defaultMount) 5))
  else
    (tr2, MainOutcome.exited 6)

/-- Lines 173-182 of main: the retransmission-time block, then the rest. -/
def stageRetrans (env : Env) (port pipe : List Char) (fac : Factory)
    (tr : List Event) : List Event × MainOutcome :=
  match env.rtxArg with
  | none => stageMountAttach env port pipe fac tr
  | some s =>
    match parseRetransMs s with
    | none => (tr, MainOutcome.exited 4)
    | some v =>
      stageMountAttach env port pipe
        (Factory.mk fac.profilesMask (some (v * GST_MSECOND % U64)) fac.launch fac.shared)
        (tr ++ [Event.retransmissionSet (v * GST_MSECOND % U64)])

/-- Lines 152-171 of main: the profiles block, then the rest. -/
def stageProfiles (env : Env) (port pipe : List Char) (fac : Factory)
    (tr : List Event) : List Event × MainOutcome :=
  match env.profArg with
  | none => stageRetrans env port pipe fac tr
  | some s =>
    match parseProfiles s with
    | none => (tr, MainOutcome.exited 3)
    | some mask =>
      stageRetrans env port pipe
        (Factory.mk (some mask) fac.rtxTime fac.launch fac.shared)
        (tr ++ [Event.profilesSet mask])

/-- main (gst-rtsp-launch.c lines 105-217): print the banner, parse
options (exit -1 on failure), require argv[1] (exit -1 when absent), then
create the server, mount table and factory and run the configuration
stages. -/
def runMain (env : Env) : List Event × MainOutcome :=
  if env.cliOk then
    match env.pipeline with
    | none => ([Event.banner], MainOutcome.exited (-1))
    | some pipe =>
      stageProfiles env (env.portArg.getD defaultPort) pipe
        (Factory.mk none none none false)
        [Event.banner, Event.serverCreated, Event.mountsObtained, Event.factoryCreated]
  else
    ([Event.banner], MainOutcome.exited (-1))

/-- The mount paths of an outcome (empty when the process exited). -/
def mountPathsOf : MainOutcome → List (List Char)
  | MainOutcome.running st => st.mounts.map (fun m => m.1)
  | MainOutcome.exited _ => []

/-- The readiness message of an outcome, when one was printed. -/
def readyMsgOf : MainOutcome → Option (List Char)
  | MainOutcome.running st => some st.readyMsg
  | MainOutcome.exited _ => none

/-! Character facts used throughout the parser lemmas. -/

theorem chA : ('A').toNat = 65 := rfl

theorem chV : ('V').toNat = 86 := rfl

theorem chP : ('P').toNat = 80 := rfl

theorem chS : ('S').toNat = 83 := rfl

theorem chF : ('F').toNat = 70 := rfl

theorem chNul : (Char.ofNat 0).toNat = 0 := rfl

theorem ueq_iff (c u : Char) :
    ueq c u = true ↔ (c.toNat = u.toNat ∨ c.toNat = u.toNat + 32) := by
  simp [ueq]

theorem ueq_false_iff (c u : Char) :
    ueq c u = false ↔ ¬(c.toNat = u.toNat ∨ c.toNat = u.toNat + 32) := by
  simp [ueq]

theorem isalnumC_false_iff (c : Char) :
    isalnumC c = false ↔
      ¬((48 ≤ c.toNat ∧ c.toNat ≤ 57) ∨ (65 ≤ c.toNat ∧ c.toNat ≤ 90) ∨
        (97 ≤ c.toNat ∧ c.toNat ≤ 122)) := by
  simp [isalnumC]

/-- A non-alphanumeric character never passes the toupper == 'F' test. -/
theorem notF_of_not_alnum (d : Char) (h : isalnumC d = false) : ueq d 'F' = false := by
  rw [isalnumC_false_iff] at h
  rw [ueq_false_iff, chF]
  omega

/-- A character whose toupper is 'A' or 'S' is alphanumeric and is not
(case-insensitively) 'S' when it is 'A', and so on; these are the head
characters of valid tokens. -/
theorem ueq_A_not_S (a : Char) (h : ueq a 'A' = true) : ueq a 'S' = false := by
  rw [ueq_iff, chA] at h
  rw [ueq_false_iff, chS]
  omega

theorem alnum_of_ueq_A (a : Char) (h : ueq a 'A' = true) : isalnumC a = true := by
  rw [ueq_iff, chA] at h
  simp [isalnumC]
  omega

theorem alnum_of_ueq_S (a : Char) (h : ueq a 'S' = true) : isalnumC a = true := by
  rw [ueq_iff, chS] at h
  simp [isalnumC]
  omega

theorem notF_of_ueq_A (a : Char) (h : ueq a 'A' = true) : ueq a 'F' = false := by
  rw [ueq_iff, chA] at h
  rw [ueq_false_iff, chF]
  omega

theorem notF_of_ueq_S (a : Char) (h : ueq a 'S' = true) : ueq a 'F' = false := by
  rw [ueq_iff, chS] at h
  rw [ueq_false_iff, chF]
  omega

/-! Facts about spellsToken. -/

/-- The flag of a valid token is one of the four single-bit profile
flags; in particular it is nonzero. -/
theorem spellsToken_flag (t : List Char) (f : Nat) (h : spellsToken t f = true) :
    f = GST_RTSP_PROFILE_AVP ∨ f = GST_RTSP_PROFILE_SAVP ∨
      f = GST_RTSP_PROFILE_AVPF ∨ f = GST_RTSP_PROFILE_SAVPF := by
  rcases t with _ | ⟨a, _ | ⟨b, _ | ⟨c, _ | ⟨d, _ | ⟨e, _ | ⟨g, tl⟩⟩⟩⟩⟩⟩ <;>
    simp [spellsToken] at h <;> tauto

theorem spellsToken_ne_zero (t : List Char) (f : Nat) (h : spellsToken t f = true) :
    f ≠ 0 := by
  rcases spellsToken_flag t f h with h1 | h1 | h1 | h1 <;>
    simp [h1, GST_RTSP_PROFILE_AVP, GST_RTSP_PROFILE_SAVP,
      GST_RTSP_PROFILE_AVPF, GST_RTSP_PROFILE_SAVPF]

/-- A valid token starts with a character whose toupper is 'A' or 'S'. -/
theorem spellsToken_head (t : List Char) (f : Nat) (h : spellsToken t f = true) :
    ∃ c r, t = c :: r ∧ (ueq c 'A' = true ∨ ueq c 'S' = true) := by
  rcases t with _ | ⟨a, _ | ⟨b, _ | ⟨c, _ | ⟨d, _ | ⟨e, _ | ⟨g, tl⟩⟩⟩⟩⟩⟩ <;>
    simp [spellsToken] at h
  · exact ⟨a, [b, c], rfl, Or.inl h.1.1.1⟩
  · rcases h with h | h
    · exact ⟨a, [b, c, d], rfl, Or.inl h.1.1.1.1⟩
    · exact ⟨a, [b, c, d], rfl, Or.inr h.1.1.1.1⟩
  · exact ⟨a, [b, c, d, e], rfl, Or.inr h.1.1.1.1.1⟩

theorem spellsToken_ne_nil (t : List Char) (f : Nat) (h : spellsToken t f = true) :
    t ≠ [] := by
  obtain ⟨c, r, hcr, _⟩ := spellsToken_head t f h
  simp [hcr]

/-- Parsing a valid token followed by anything that does not continue it:
the parser consumes exactly the token and produces exactly its flag.  For
the two tokens that do not end in F the continuation must not start with
an F (in the loop it is a delimiter, the terminator, or the head of
another token, none of which are F). -/
theorem parseProfile_spells (t rest : List Char) (f : Nat)
    (ht : spellsToken t f = true)
    (hrest : ueq (rest.headD (Char.ofNat 0)) 'F' = false ∨
      f = GST_RTSP_PROFILE_AVPF ∨ f = GST_RTSP_PROFILE_SAVPF) :
    parseProfile (t ++ rest) = (f, rest) := by
  rcases t with _ | ⟨a, _ | ⟨b, _ | ⟨c, _ | ⟨d, _ | ⟨e, _ | ⟨g, tl⟩⟩⟩⟩⟩⟩ <;>
    simp [spellsToken] at ht
  · -- t = [a, b, c] : AVP
    obtain ⟨⟨⟨hA, hV⟩, hP⟩, hf⟩ := ht
    subst hf
    have hnF : ueq (rest.headD (Char.ofNat 0)) 'F' = false := by
      rcases hrest with h | h | h
      · exact h
      · simp [GST_RTSP_PROFILE_AVP, GST_RTSP_PROFILE_AVPF] at h
      · simp [GST_RTSP_PROFILE_AVP, GST_RTSP_PROFILE_SAVPF] at h
    rw [List.headD_eq_head?] at hnF
    simp [parseProfile, matchAVP, hA, hV, hP, hnF, ueq_A_not_S a hA]
  · -- t = [a, b, c, d] : AVPF or SAVP
    rcases ht with ⟨⟨⟨⟨hA, hV⟩, hP⟩, hF⟩, hf⟩ | ⟨⟨⟨⟨hS, hA⟩, hV⟩, hP⟩, hf⟩
    · subst hf
      simp [parseProfile, matchAVP, hA, hV, hP, hF, ueq_A_not_S a hA]
    · subst hf
      have hnF : ueq (rest.headD (Char.ofNat 0)) 'F' = false := by
        rcases hrest with h | h | h
        · exact h
        · simp [GST_RTSP_PROFILE_SAVP, GST_RTSP_PROFILE_AVPF] at h
        · simp [GST_RTSP_PROFILE_SAVP, GST_RTSP_PROFILE_SAVPF] at h
      rw [List.headD_eq_head?] at hnF
      simp [parseProfile, matchAVP, hS, hA, hV, hP, hnF]
  · -- t = [a, b, c, d, e] : SAVPF
    obtain ⟨⟨⟨⟨⟨hS, hA⟩, hV⟩, hP⟩, hF⟩, hf⟩ := ht
    subst hf
    simp [parseProfile, matchAVP, hS, hA, hV, hP, hF]

/-! Length accounting for the loop's fuel. -/

theorem matchAVP_some_len (l r : List Char) (h : matchAVP l = some r) :
    l.length = r.length + 3 := by
  rcases l with _ | ⟨a, _ | ⟨v, _ | ⟨p, t⟩⟩⟩ <;> simp [matchAVP] at h
  rcases h with ⟨-, h⟩
  simp [← h]

/-- A recognised token occupies at least three characters. -/
theorem parseProfile_len_or (l : List Char) :
    (parseProfile l).1 = 0 ∨ (parseProfile l).2.length + 3 ≤ l.length := by
  have htail : l.tail.length = l.length - 1 := by
    rcases l with _ | ⟨c, cs⟩ <;> simp
  unfold parseProfile
  split
  · rcases hm : matchAVP l.tail with _ | rest
    · simp
    · have hlen := matchAVP_some_len _ _ hm
      have hrt : rest.tail.length = rest.length - 1 := by
        rcases rest with _ | ⟨c, cs⟩ <;> simp
      right
      show ((if ueq (rest.headD (Char.ofNat 0)) 'F' = true
             then (GST_RTSP_PROFILE_SAVPF, rest.tail)
             else (GST_RTSP_PROFILE_SAVP, rest)).2.length + 3 ≤ l.length)
      by_cases hf : ueq (rest.headD (Char.ofNat 0)) 'F' = true
      · rw [if_pos hf]
        show rest.tail.length + 3 ≤ l.length
        omega
      · rw [if_neg hf]
        show rest.length + 3 ≤ l.length
        omega
  · rcases hm : matchAVP l with _ | rest
    · simp
    · have hlen := matchAVP_some_len _ _ hm
      have hrt : rest.tail.length = rest.length - 1 := by
        rcases rest with _ | ⟨c, cs⟩ <;> simp
      right
      show ((if ueq (rest.headD (Char.ofNat 0)) 'F' = true
             then (GST_RTSP_PROFILE_AVPF, rest.tail)
             else (GST_RTSP_PROFILE_AVP, rest)).2.length + 3 ≤ l.length)
      by_cases hf : ueq (rest.headD (Char.ofNat 0)) 'F' = true
      · rw [if_pos hf]
        show rest.tail.length + 3 ≤ l.length
        omega
      · rw [if_neg hf]
        show rest.length + 3 ≤ l.length
        omega

theorem parseProfile_len (l : List Char) (h : (parseProfile l).1 ≠ 0) :
    (parseProfile l).2.length + 3 ≤ l.length :=
  (parseProfile_len_or l).resolve_left h

/-- Any fuel at least the length of the cursor computes the same result:
the loop consumes at least one character (in fact at least four) per unit
of fuel spent. -/
theorem profileLoopAux_fuel (fuel1 : Nat) :
    ∀ fuel2 cursor mask, cursor.length ≤ fuel1 → cursor.length ≤ fuel2 →
      profileLoopAux fuel1 cursor mask = profileLoopAux fuel2 cursor mask := by
  induction fuel1 with
  | zero =>
    intro fuel2 cursor mask h1 _
    have : cursor = [] := by
      rcases cursor with _ | ⟨c, cs⟩
      · rfl
      · simp at h1
    subst this
    cases fuel2 <;> rfl
  | succ n ih =>
    intro fuel2 cursor mask h1 h2
    rcases cursor with _ | ⟨c, cs⟩
    · cases fuel2 <;> rfl
    · rcases fuel2 with _ | m
      · simp at h2
      · simp only [profileLoopAux]
        by_cases h0 : (parseProfile (c :: cs)).1 = 0
        · simp [h0]
        · simp only [h0, if_false]
          rcases hsnd : (parseProfile (c :: cs)).2 with _ | ⟨d, r2⟩
          · rfl
          · have hlen := parseProfile_len (c :: cs) h0
            rw [hsnd] at hlen
            simp only [List.length_cons] at hlen h1 h2
            by_cases hal : isalnumC d
            · simp [hal]
            · simp only [hal, if_false]
              exact ih m r2 _ (by omega) (by omega)

theorem profileLoop_nil (mask : Nat) : profileLoop [] mask = some mask := rfl

/-- One unfolding of the loop body at a nonempty cursor, with the
recursive call renormalised to its natural fuel. -/
theorem profileLoop_cons_eq (u : List Char) (mask : Nat) (hu : u ≠ []) :
    profileLoop u mask =
      (if (parseProfile u).1 = 0 then none
       else
         match (parseProfile u).2 with
         | [] => some (mask ||| (parseProfile u).1)
         | d :: r2 =>
           if isalnumC d then none else profileLoop r2 (mask ||| (parseProfile u).1)) := by
  rcases u with _ | ⟨c, cs⟩
  · exact absurd rfl hu
  · show profileLoopAux (cs.length + 1) (c :: cs) mask = _
    simp only [profileLoopAux]
    by_cases h0 : (parseProfile (c :: cs)).1 = 0
    · simp [h0]
    · simp only [h0, if_false]
      rcases hsnd : (parseProfile (c :: cs)).2 with _ | ⟨d, r2⟩
      · rfl
      · have hlen := parseProfile_len (c :: cs) h0
        rw [hsnd] at hlen
        simp only [List.length_cons] at hlen
        by_cases hal : isalnumC d
        · simp [hal]
        · simp only [hal, if_false]
          exact profileLoopAux_fuel cs.length r2.length r2 _ (by omega) (by omega)

/-! Behaviour of the loop on well-formed token sequences. -/

/-- After a valid token the loop behaves as afterTokens on the remainder:
it stops at the terminator, fails on an alphanumeric character, and skips
exactly one delimiter otherwise. -/
theorem profileLoop_token (t tail : List Char) (f mask : Nat)
    (ht : spellsToken t f = true)
    (htail : ueq (tail.headD (Char.ofNat 0)) 'F' = false) :
    profileLoop (t ++ tail) mask = afterTokens tail (mask ||| f) := by
  have hp := parseProfile_spells t tail f ht (Or.inl htail)
  have hne : t ++ tail ≠ [] := by
    rcases spellsToken_head t f ht with ⟨c, r, hcr, -⟩
    simp [hcr]
  rw [profileLoop_cons_eq (t ++ tail) mask hne, hp]
  simp only [spellsToken_ne_zero t f ht, if_false]
  rcases tail with _ | ⟨d, r2⟩
  · rfl
  · rfl

/-- Chaining profileLoop_token over a (delimiter, token, flag) list. -/
theorem profileLoop_specJoin (rest : List (Char × List Char × Nat)) :
    ∀ t0 f0 mask tail,
      spellsToken t0 f0 = true →
      (∀ q ∈ rest, isalnumC q.1 = false ∧ spellsToken q.2.1 q.2.2 = true) →
      ueq (tail.headD (Char.ofNat 0)) 'F' = false →
      profileLoop (specJoin t0 rest ++ tail) mask =
        afterTokens tail (rest.foldl (fun m q => m ||| q.2.2) (mask ||| f0)) := by
  induction rest with
  | nil =>
    intro t0 f0 mask tail h0 _ htail
    have : specJoin t0 [] = t0 := by simp [specJoin]
    rw [this, List.foldl_nil]
    exact profileLoop_token t0 tail f0 mask h0 htail
  | cons q rs ih =>
    intro t0 f0 mask tail h0 hrest htail
    obtain ⟨hq1, hq2⟩ := hrest q (List.mem_cons_self q rs)
    have hjoin : specJoin t0 (q :: rs) ++ tail =
        t0 ++ q.1 :: (specJoin q.2.1 rs ++ tail) := by
      simp [specJoin, List.append_assoc]
    rw [hjoin]
    rw [profileLoop_token t0 (q.1 :: (specJoin q.2.1 rs ++ tail)) f0 mask h0
      (by simp only [List.headD_cons]; exact notF_of_not_alnum q.1 hq1)]
    show (if isalnumC q.1 then none
      else profileLoop (specJoin q.2.1 rs ++ tail) (mask ||| f0)) = _
    rw [if_neg (by simp [hq1])]
    rw [ih q.2.1 q.2.2 (mask ||| f0) tail hq2
      (fun p hp => hrest p (List.mem_cons_of_mem q hp)) htail]
    rfl

/-! Failure behaviour of the loop. -/

/-- At an unrecognised token the loop fails immediately. -/
theorem profileLoop_fail_unknown (u : List Char) (mask : Nat)
    (hu : u ≠ []) (h : (parseProfile u).1 = 0) :
    profileLoop u mask = none := by
  rw [profileLoop_cons_eq u mask hu]
  simp [h]

/-- Two valid tokens with nothing between them: the first token is
consumed, the following character is alphanumeric, and the loop fails. -/
theorem profileLoop_fail_concat (t1 t2 suffix : List Char) (f1 f2 mask : Nat)
    (h1 : spellsToken t1 f1 = true) (h2 : spellsToken t2 f2 = true) :
    profileLoop (t1 ++ t2 ++ suffix) mask = none := by
  obtain ⟨c, r, hcr, hc⟩ := spellsToken_head t2 f2 h2
  have hcF : ueq c 'F' = false := by
    rcases hc with hc | hc
    · exact notF_of_ueq_A c hc
    · exact notF_of_ueq_S c hc
  have hcAl : isalnumC c = true := by
    rcases hc with hc | hc
    · exact alnum_of_ueq_A c hc
    · exact alnum_of_ueq_S c hc
  rw [List.append_assoc]
  rw [profileLoop_token t1 (t2 ++ suffix) f1 mask h1
    (by rw [hcr]; simp only [List.cons_append, List.headD_cons]; exact hcF)]
  rw [hcr]
  show (if isalnumC c then none else profileLoop (r ++ suffix) (mask ||| f1)) = none
  rw [if_pos hcAl]

/-- A valid prefix of tokens and delimiters followed by a failing
remainder makes the whole parse fail. -/
theorem profileLoop_preJoin_fail (pre : List (List Char × Nat × Char)) :
    ∀ u mask,
      (∀ q ∈ pre, spellsToken q.1 q.2.1 = true ∧ isalnumC q.2.2 = false) →
      (∀ m, profileLoop u m = none) →
      profileLoop (preJoin pre u) mask = none := by
  induction pre with
  | nil =>
    intro u mask _ hu
    exact hu mask
  | cons q rs ih =>
    intro u mask hpre hu
    obtain ⟨hq1, hq2⟩ := hpre q (List.mem_cons_self q rs)
    have hjoin : preJoin (q :: rs) u = q.1 ++ q.2.2 :: preJoin rs u := by
      simp [preJoin]
    rw [hjoin]
    rw [profileLoop_token q.1 (q.2.2 :: preJoin rs u) q.2.1 mask hq1
      (by simp only [List.headD_cons]; exact notF_of_not_alnum q.2.2 hq2)]
    show (if isalnumC q.2.2 then none
      else profileLoop (preJoin rs u) (mask ||| q.2.1)) = none
    rw [if_neg (by simp [hq2])]
    exact ih u (mask ||| q.2.1) (fun p hp => hpre p (List.mem_cons_of_mem q hp)) hu

/-! The decimal digit loop on pure digit strings. -/

/-- On a string of decimal digits, digitsLoop with base 10 consumes
everything and folds up the decimal value. -/
theorem digitsLoop_decimal (ds : List Char) :
    ∀ acc n, (∀ c ∈ ds, isdigitC c = true) →
      digitsLoop 10 ds acc n =
        (ds.foldl (fun a c => a * 10 + (c.toNat - 48)) acc, n + ds.length, []) := by
  induction ds with
  | nil => intro acc n _; simp [digitsLoop]
  | cons c cs ih =>
    intro acc n hall
    have hc := hall c (List.mem_cons_self c cs)
    have hcn : 48 ≤ c.toNat ∧ c.toNat ≤ 57 := by
      simpa [isdigitC] using hc
    have hhex : hexVal c = some (c.toNat - 48) := by
      unfold hexVal
      rw [if_pos hcn]
    have hlt : c.toNat - 48 < 10 := by omega
    show (match hexVal c with
      | some d => if d < 10 then digitsLoop 10 cs (acc * 10 + d) (n + 1)
        else (acc, n, c :: cs)
      | none => (acc, n, c :: cs)) = _
    rw [hhex]
    simp only [hlt, if_true]
    rw [ih (acc * 10 + (c.toNat - 48)) (n + 1)
      (fun x hx => hall x (List.mem_cons_of_mem c hx))]
    simp only [List.foldl_cons, List.length_cons]
    have : n + 1 + cs.length = n + (cs.length + 1) := by omega
    rw [this]

/-- The decimal value of a digit string. -/
def digitsToNat (ds : List Char) : Nat :=
  ds.foldl (fun a c => a * 10 + (c.toNat - 48)) 0

/-- A nonempty pure-decimal-digit string whose first digit is not 0 (so
that strtoull's base detection picks decimal) and whose value fits in 64
bits parses to its decimal value. -/
theorem parseRetransMs_decimal (ds : List Char) (hne : ds ≠ [])
    (hall : ∀ c ∈ ds, isdigitC c = true)
    (hhead : (ds.headD ' ').toNat ≠ 48)
    (hlt : digitsToNat ds < U64) :
    parseRetransMs ds = some (digitsToNat ds) := by
  rcases ds with _ | ⟨c, cs⟩
  · exact absurd rfl hne
  have hc := hall c (List.mem_cons_self c cs)
  have hcn : 48 ≤ c.toNat ∧ c.toNat ≤ 57 := by simpa [isdigitC] using hc
  have hheadn : c.toNat ≠ 48 := by simpa using hhead
  have h1 : List.dropWhile isspaceC (c :: cs) = c :: cs := by
    rw [List.dropWhile_cons, if_neg]
    simp only [isspaceC, decide_eq_true_eq]
    omega
  have hminus : (c == '-') = false := by
    apply beq_eq_false_iff_ne.mpr
    intro h
    subst h
    have : ('-').toNat = 45 := rfl
    omega
  have hplus : (c == '+') = false := by
    apply beq_eq_false_iff_ne.mpr
    intro h
    subst h
    have : ('+').toNat = 43 := rfl
    omega
  have hzero : (c == '0') = false := by
    apply beq_eq_false_iff_ne.mpr
    intro h
    subst h
    have : ('0').toNat = 48 := rfl
    omega
  have hD := digitsLoop_decimal (c :: cs) 0 0 hall
  have hnle : ¬ U64 ≤ digitsToNat (c :: cs) := by omega
  simp only [digitsToNat, List.foldl_cons] at hnle
  simp only [Nat.zero_mul, Nat.zero_add] at hnle
  simp [parseRetransMs, strtoull0, h1, hminus, hplus, hzero, hD, hnle, digitsToNat]

/-! The claims. -/

/-- C1: for every profile-spec string composed of valid tokens (AVP, AVPF,
SAVP, SAVPF, case-insensitive) separated by exactly one non-alphanumeric
delimiter each, parsing succeeds and the resulting mask is the bitwise OR
of the tokens' flags, for any delimiter characters and any letter case;
each token maps to the single flag fixed by spellsToken, where a leading S
selects the secure pair and a trailing F the feedback pair. -/
theorem claim1_profile_mask (t0 : List Char) (f0 : Nat)
    (rest : List (Char × List Char × Nat))
    (h0 : spellsToken t0 f0 = true)
    (hrest : ∀ q ∈ rest, isalnumC q.1 = false ∧ q.1 ≠ Char.ofNat 0 ∧
      spellsToken q.2.1 q.2.2 = true) :
    parseProfiles (specJoin t0 rest) =
      some (rest.foldl (fun m q => m ||| q.2.2) f0) := by
  have h := profileLoop_specJoin rest t0 f0 0 [] h0
    (fun q hq => ⟨(hrest q hq).1, (hrest q hq).2.2⟩) (by decide)
  simpa [parseProfiles, afterTokens, List.append_nil, Nat.zero_or] using h

theorem claim1_witness :
    parseProfiles (specJoin (chars "avp") [('+', chars "savpf", 8)]) =
      some ([('+', chars "savpf", 8)].foldl (fun m q => m ||| q.2.2) 1) :=
  claim1_profile_mask (chars "avp") 1 [('+', chars "savpf", 8)]
    (by decide) (by decide)

/-- C6 counterexample: the claim says a trailing delimiter after a valid
token makes parsing fail with ProfileSyntaxError; in the code, "AVP+" is
accepted with mask AVP, because after skipping the delimiter the loop head
sees the terminator and exits successfully, and no exit code 3 occurs. -/
theorem claim6_counterexample :
    parseProfiles (chars "AVP+") = some GST_RTSP_PROFILE_AVP ∧
    (runMain (Env.mk true none none (some (chars "AVP+")) none
      (some (chars "v")) true)).2 ≠ MainOutcome.exited 3 := by
  constructor
  · decide
  · decide

/-- C6 amended: a profile-spec string ending in a single non-alphanumeric
delimiter immediately after a valid token parses successfully: the loop
consumes the trailing delimiter, finds the terminator at the loop head,
and exits with the mask accumulated so far. -/
theorem claim6_trailing_delimiter (t0 : List Char) (f0 : Nat)
    (rest : List (Char × List Char × Nat)) (d : Char)
    (h0 : spellsToken t0 f0 = true)
    (hrest : ∀ q ∈ rest, isalnumC q.1 = false ∧ q.1 ≠ Char.ofNat 0 ∧
      spellsToken q.2.1 q.2.2 = true)
    (hd : isalnumC d = false) (_hd0 : d ≠ Char.ofNat 0) :
    parseProfiles (specJoin t0 rest ++ [d]) =
      some (rest.foldl (fun m q => m ||| q.2.2) f0) := by
  have h := profileLoop_specJoin rest t0 f0 0 [d] h0
    (fun q hq => ⟨(hrest q hq).1, (hrest q hq).2.2⟩)
    (by simp only [List.headD_cons]; exact notF_of_not_alnum d hd)
  simpa [parseProfiles, afterTokens, hd, Nat.zero_or, profileLoop_nil] using h

theorem claim6_witness :
    parseProfiles (specJoin (chars "savp") [] ++ [',']) =
      some (([] : List (Char × List Char × Nat)).foldl (fun m q => m ||| q.2.2) 2) :=
  claim6_trailing_delimiter (chars "savp") 2 [] ','
    (by decide) (by decide) (by decide) (by decide)

/-- C4: a profile spec consisting of a (possibly empty) valid prefix of
tokens and single delimiters followed either by an unrecognised token or
by two valid tokens with no delimiter between them fails with exit code 3,
and no mask is applied to the factory (no profilesSet step occurs). -/
theorem claim4_bad_spec_fails (env : Env) (p : List Char)
    (pre : List (List Char × Nat × Char)) (u : List Char)
    (hpre : ∀ q ∈ pre, spellsToken q.1 q.2.1 = true ∧ isalnumC q.2.2 = false ∧
      q.2.2 ≠ Char.ofNat 0)
    (hbad : ((parseProfile u).1 = 0 ∧ u ≠ []) ∨
      (∃ t1 f1 t2 f2 suffix, u = t1 ++ t2 ++ suffix ∧
        spellsToken t1 f1 = true ∧ spellsToken t2 f2 = true))
    (hcli : env.cliOk = true) (hpipe : env.pipeline = some p)
    (hprof : env.profArg = some (preJoin pre u)) :
    parseProfiles (preJoin pre u) = none ∧
    (runMain env).2 = MainOutcome.exited 3 ∧
    (∀ m, Event.profilesSet m ∉ (runMain env).1) := by
  have hu : ∀ mask, profileLoop u mask = none := by
    intro mask
    rcases hbad with ⟨h0, hne⟩ | ⟨t1, f1, t2, f2, suffix, hEq, h1, h2⟩
    · exact profileLoop_fail_unknown u mask hne h0
    · rw [hEq]
      exact profileLoop_fail_concat t1 t2 suffix f1 f2 mask h1 h2
  have hparse : parseProfiles (preJoin pre u) = none :=
    profileLoop_preJoin_fail pre u 0
      (fun q hq => ⟨(hpre q hq).1, (hpre q hq).2.1⟩) hu
  refine ⟨hparse, ?_, ?_⟩
  · simp [runMain, hcli, hpipe, stageProfiles, hprof, hparse]
  · intro m
    simp [runMain, hcli, hpipe, stageProfiles, hprof, hparse]

theorem claim4_witness :
    parseProfiles (preJoin [] (chars "AVPAVPF")) = none ∧
    (runMain (Env.mk true none none (some (preJoin [] (chars "AVPAVPF"))) none
      (some (chars "v")) true)).2 = MainOutcome.exited 3 ∧
    (∀ m, Event.profilesSet m ∉
      (runMain (Env.mk true none none (some (preJoin [] (chars "AVPAVPF"))) none
        (some (chars "v")) true)).1) :=
  claim4_bad_spec_fails
    (Env.mk true none none (some (preJoin [] (chars "AVPAVPF"))) none
      (some (chars "v")) true)
    (chars "v") [] (chars "AVPAVPF")
    (by decide)
    (Or.inr ⟨chars "AVP", 1, chars "AVPF", 4, [], by decide, by decide, by decide⟩)
    rfl rfl rfl

/-- C10: when the profiles option is the empty string the loop runs zero
iterations, parsing succeeds with mask 0, the zero mask is applied to the
factory, and exit code 3 is not produced. -/
theorem claim10_empty_profiles (env : Env) (p : List Char)
    (hcli : env.cliOk = true) (hpipe : env.pipeline = some p)
    (hprof : env.profArg = some []) :
    parseProfiles [] = some 0 ∧
    Event.profilesSet 0 ∈ (runMain env).1 ∧
    (runMain env).2 ≠ MainOutcome.exited 3 := by
  refine ⟨rfl, ?_, ?_⟩ <;>
  · rcases env with ⟨cli, pA, eA, prA, rA, pipe, att⟩
    simp only at hcli hpipe hprof
    subst hcli
    subst hpipe
    subst hprof
    rcases rA with _ | r
    · cases att <;>
        simp [runMain, stageProfiles, stageRetrans, stageMountAttach,
          show parseProfiles [] = some 0 from rfl]
    · rcases hrt : parseRetransMs r with _ | v <;> cases att <;>
        simp [runMain, stageProfiles, stageRetrans, stageMountAttach,
          show parseProfiles [] = some 0 from rfl, hrt]

theorem claim10_witness :
    parseProfiles [] = some 0 ∧
    Event.profilesSet 0 ∈ (runMain (Env.mk true none none (some []) none
      (some (chars "v")) true)).1 ∧
    (runMain (Env.mk true none none (some []) none
      (some (chars "v")) true)).2 ≠ MainOutcome.exited 3 :=
  claim10_empty_profiles
    (Env.mk true none none (some []) none (some (chars "v")) true)
    (chars "v") rfl rfl rfl

/-- C9: when the pipeline argument is absent the process exits with code
-1 without creating a server, a mount table, a factory, or mounting
anything, regardless of the other flags. -/
theorem claim9_no_server (env : Env) (h : env.pipeline = none) :
    (runMain env).2 = MainOutcome.exited (-1) ∧
    Event.serverCreated ∉ (runMain env).1 ∧
    Event.mountsObtained ∉ (runMain env).1 ∧
    Event.factoryCreated ∉ (runMain env).1 ∧
    (∀ path, Event.factoryMounted path ∉ (runMain env).1) := by
  rcases env with ⟨cli, pA, eA, prA, rA, pipe, att⟩
  simp only at h
  subst h
  cases cli <;> simp [runMain]

theorem claim9_witness :
    (runMain (Env.mk true (some (chars "9000")) (some (chars "cam1"))
      (some (chars "AVP")) (some (chars "150")) none true)).2 =
        MainOutcome.exited (-1) ∧
    Event.serverCreated ∉ (runMain (Env.mk true (some (chars "9000"))
      (some (chars "cam1")) (some (chars "AVP")) (some (chars "150")) none true)).1 ∧
    Event.mountsObtained ∉ (runMain (Env.mk true (some (chars "9000"))
      (some (chars "cam1")) (some (chars "AVP")) (some (chars "150")) none true)).1 ∧
    Event.factoryCreated ∉ (runMain (Env.mk true (some (chars "9000"))
      (some (chars "cam1")) (some (chars "AVP")) (some (chars "150")) none true)).1 ∧
    (∀ path, Event.factoryMounted path ∉ (runMain (Env.mk true
      (some (chars "9000")) (some (chars "cam1")) (some (chars "AVP"))
      (some (chars "150")) none true)).1) :=
  claim9_no_server (Env.mk true (some (chars "9000")) (some (chars "cam1"))
    (some (chars "AVP")) (some (chars "150")) none true) rfl

/-- C5: the exit codes are exactly -1 for a CLI parse error or a missing
pipeline argument (whatever the other flags), 3 for an invalid profile
spec, 4 for an invalid retransmission-time spec, 6 for attach failure, and
nothing else; code 0 is only reachable by falling out of the run loop,
which the model renders as the running outcome. -/
theorem claim5_exit_codes (env : Env) :
    ((runMain env).2 = MainOutcome.exited (-1) ↔
      (env.cliOk = false ∨ env.pipeline = none)) ∧
    ((runMain env).2 = MainOutcome.exited 3 ↔
      (env.cliOk = true ∧ env.pipeline ≠ none ∧
        ∃ s, env.profArg = some s ∧ parseProfiles s = none)) ∧
    ((runMain env).2 = MainOutcome.exited 4 ↔
      (env.cliOk = true ∧ env.pipeline ≠ none ∧
        (∀ s, env.profArg = some s → parseProfiles s ≠ none) ∧
        ∃ s, env.rtxArg = some s ∧ parseRetransMs s = none)) ∧
    ((runMain env).2 = MainOutcome.exited 6 ↔
      (env.cliOk = true ∧ env.pipeline ≠ none ∧
        (∀ s, env.profArg = some s → parseProfiles s ≠ none) ∧
        (∀ s, env.rtxArg = some s → parseRetransMs s ≠ none) ∧
        env.attachOk = false)) ∧
    (∀ c, (runMain env).2 = MainOutcome.exited c →
      c = -1 ∨ c = 3 ∨ c = 4 ∨ c = 6) := by
  rcases env with ⟨cli, pA, eA, prA, rA, pipe, att⟩
  cases cli
  · simp [runMain]
  · rcases pipe with _ | p
    · simp [runMain]
    · rcases prA with _ | s
      · rcases rA with _ | r
        · cases att <;>
            simp [runMain, stageProfiles, stageRetrans, stageMountAttach]
        · rcases hrt : parseRetransMs r with _ | v <;> cases att <;>
            simp [runMain, stageProfiles, stageRetrans, stageMountAttach, hrt]
      · rcases hps : parseProfiles s with _ | m
        · simp [runMain, stageProfiles, hps]
        · rcases rA with _ | r
          · cases att <;>
              simp [runMain, stageProfiles, stageRetrans, stageMountAttach, hps]
          · rcases hrt : parseRetransMs r with _ | v <;> cases att <;>
              simp [runMain, stageProfiles, stageRetrans, stageMountAttach, hps, hrt]

theorem claim5_witness :
    ((runMain (Env.mk true none none none none (some (chars "v")) true)).2 =
        MainOutcome.exited (-1) ↔
      ((Env.mk true none none none none (some (chars "v")) true).cliOk = false ∨
        (Env.mk true none none none none (some (chars "v")) true).pipeline = none)) ∧
    ((runMain (Env.mk true none none none none (some (chars "v")) true)).2 =
        MainOutcome.exited 3 ↔
      ((Env.mk true none none none none (some (chars "v")) true).cliOk = true ∧
        (Env.mk true none none none none (some (chars "v")) true).pipeline ≠ none ∧
        ∃ s, (Env.mk true none none none none (some (chars "v")) true).profArg = some s ∧
          parseProfiles s = none)) ∧
    ((runMain (Env.mk true none none none none (some (chars "v")) true)).2 =
        MainOutcome.exited 4 ↔
      ((Env.mk true none none none none (some (chars "v")) true).cliOk = true ∧
        (Env.mk true none none none none (some (chars "v")) true).pipeline ≠ none ∧
        (∀ s, (Env.mk true none none none none (some (chars "v")) true).profArg = some s →
          parseProfiles s ≠ none) ∧
        ∃ s, (Env.mk true none none none none (some (chars "v")) true).rtxArg = some s ∧
          parseRetransMs s = none)) ∧
    ((runMain (Env.mk true none none none none (some (chars "v")) true)).2 =
        MainOutcome.exited 6 ↔
      ((Env.mk true none none none none (some (chars "v")) true).cliOk = true ∧
        (Env.mk true none none none none (some (chars "v")) true).pipeline ≠ none ∧
        (∀ s, (Env.mk true none none none none (some (chars "v")) true).profArg = some s →
          parseProfiles s ≠ none) ∧
        (∀ s, (Env.mk true none none none none (some (chars "v")) true).rtxArg = some s →
          parseRetransMs s ≠ none) ∧
        (Env.mk true none none none none (some (chars "v")) true).attachOk = false)) ∧
    (∀ c, (runMain (Env.mk true none none none none (some (chars "v")) true)).2 =
        MainOutcome.exited c → c = -1 ∨ c = 3 ∨ c = 4 ∨ c = 6) :=
  claim5_exit_codes (Env.mk true none none none none (some (chars "v")) true)

/-- C7: when the retransmission-time string parses to v milliseconds, the
duration stored on the factory is v * GST_MSECOND in 64-bit unsigned
arithmetic, and having this duration set is what constitutes the
retain-packets-for-retransmission behaviour (retainForRetransmission);
there is no separate flag. -/
theorem claim7_retransmission (env : Env) (p s : List Char) (v : Nat)
    (hcli : env.cliOk = true) (hpipe : env.pipeline = some p)
    (hprofOk : ∀ q, env.profArg = some q → parseProfiles q ≠ none)
    (hrtx : env.rtxArg = some s) (hv : parseRetransMs s = some v) :
    Event.retransmissionSet (v * GST_MSECOND % U64) ∈ (runMain env).1 ∧
    (∀ st, (runMain env).2 = MainOutcome.running st →
      ∀ m ∈ st.mounts, m.2.rtxTime = some (v * GST_MSECOND % U64) ∧
        retainForRetransmission m.2 = true) := by
  rcases env with ⟨cli, pA, eA, prA, rA, pipe, att⟩
  simp only at hcli hpipe hprofOk hrtx
  subst hcli
  subst hpipe
  subst hrtx
  rcases prA with _ | q
  · cases att
    · simp only [runMain, stageProfiles, stageRetrans, stageMountAttach, hv]
      constructor
      · simp
      · intro st hst
        simp at hst
    · simp only [runMain, stageProfiles, stageRetrans, stageMountAttach, hv]
      constructor
      · simp
      · intro st hst
        simp only [if_true] at hst
        injection hst with h
        subst h
        simp [retainForRetransmission]
  · have hq := hprofOk q rfl
    rcases hps : parseProfiles q with _ | mval
    · exact absurd hps hq
    · cases att
      · simp only [runMain, stageProfiles, stageRetrans, stageMountAttach, hps, hv]
        constructor
        · simp
        · intro st hst
          simp at hst
      · simp only [runMain, stageProfiles, stageRetrans, stageMountAttach, hps, hv]
        constructor
        · simp
        · intro st hst
          simp only [if_true] at hst
          injection hst with h
          subst h
          simp [retainForRetransmission]

theorem claim7_witness :
    Event.retransmissionSet (150 * GST_MSECOND % U64) ∈
      (runMain (Env.mk true none none none (some (chars "150"))
        (some (chars "v")) true)).1 ∧
    (∀ st, (runMain (Env.mk true none none none (some (chars "150"))
        (some (chars "v")) true)).2 = MainOutcome.running st →
      ∀ m ∈ st.mounts, m.2.rtxTime = some (150 * GST_MSECOND % U64) ∧
        retainForRetransmission m.2 = true) :=
  claim7_retransmission
    (Env.mk true none none none (some (chars "150")) (some (chars "v")) true)
    (chars "v") (chars "150") 150 rfl rfl (fun q hq => nomatch hq) rfl (by decide)

/-! Trace shape of successful and failed runs, for the reaper claim. -/

theorem stageMountAttach_running (env : Env) (port pipe : List Char)
    (fac : Factory) (tr : List Event) (st : ServerState)
    (h : (stageMountAttach env port pipe fac tr).2 = MainOutcome.running st) :
    st.reaperIntervalSec = 5 ∧
    ∃ pre, (stageMountAttach env port pipe fac tr).1 =
      pre ++ [Event.attached, Event.reaperScheduled 5,
        Event.readyPrinted st.readyMsg] := by
  cases hatt : env.attachOk
  · simp [stageMountAttach, hatt] at h
  · simp only [stageMountAttach, hatt, if_true] at h ⊢
    injection h with h2
    subst h2
    refine ⟨rfl, ?_⟩
    exact ⟨tr ++ [Event.launchSet pipe, Event.sharedSet true,
      Event.pipelinePrinted pipe, Event.factoryMounted defaultMount], by simp⟩

theorem stageRetrans_running (env : Env) (port pipe : List Char)
    (fac : Factory) (tr : List Event) (st : ServerState)
    (h : (stageRetrans env port pipe fac tr).2 = MainOutcome.running st) :
    st.reaperIntervalSec = 5 ∧
    ∃ pre, (stageRetrans env port pipe fac tr).1 =
      pre ++ [Event.attached, Event.reaperScheduled 5,
        Event.readyPrinted st.readyMsg] := by
  rcases hr : env.rtxArg with _ | s
  · simp only [stageRetrans, hr] at h ⊢
    exact stageMountAttach_running env port pipe fac tr st h
  · rcases hv : parseRetransMs s with _ | v
    · simp [stageRetrans, hr, hv] at h
    · simp only [stageRetrans, hr, hv] at h ⊢
      exact stageMountAttach_running env port pipe _ _ st h

theorem stageProfiles_running (env : Env) (port pipe : List Char)
    (fac : Factory) (tr : List Event) (st : ServerState)
    (h : (stageProfiles env port pipe fac tr).2 = MainOutcome.running st) :
    st.reaperIntervalSec = 5 ∧
    ∃ pre, (stageProfiles env port pipe fac tr).1 =
      pre ++ [Event.attached, Event.reaperScheduled 5,
        Event.readyPrinted st.readyMsg] := by
  rcases hp : env.profArg with _ | s
  · simp only [stageProfiles, hp] at h ⊢
    exact stageRetrans_running env port pipe fac tr st h
  · rcases hps : parseProfiles s with _ | m
    · simp [stageProfiles, hp, hps] at h
    · simp only [stageProfiles, hp, hps] at h ⊢
      exact stageRetrans_running env port pipe _ _ st h

theorem runMain_running (env : Env) (st : ServerState)
    (h : (runMain env).2 = MainOutcome.running st) :
    st.reaperIntervalSec = 5 ∧
    ∃ pre, (runMain env).1 = pre ++ [Event.attached, Event.reaperScheduled 5,
      Event.readyPrinted st.readyMsg] := by
  cases hcli : env.cliOk
  · simp [runMain, hcli] at h
  · rcases hp : env.pipeline with _ | p
    · simp [runMain, hcli, hp] at h
    · simp only [runMain, hcli, hp, if_true] at h ⊢
      exact stageProfiles_running env _ p _ _ st h

theorem stageMountAttach_exited (env : Env) (port pipe : List Char)
    (fac : Factory) (tr : List Event) (c : Int)
    (htr : ∀ n, Event.reaperScheduled n ∉ tr)
    (h : (stageMountAttach env port pipe fac tr).2 = MainOutcome.exited c) :
    ∀ n, Event.reaperScheduled n ∉ (stageMountAttach env port pipe fac tr).1 := by
  cases hatt : env.attachOk
  · intro n
    simp [stageMountAttach, hatt, List.mem_append]
    exact htr n
  · simp [stageMountAttach, hatt] at h

theorem stageRetrans_exited (env : Env) (port pipe : List Char)
    (fac : Factory) (tr : List Event) (c : Int)
    (htr : ∀ n, Event.reaperScheduled n ∉ tr)
    (h : (stageRetrans env port pipe fac tr).2 = MainOutcome.exited c) :
    ∀ n, Event.reaperScheduled n ∉ (stageRetrans env port pipe fac tr).1 := by
  rcases hr : env.rtxArg with _ | s
  · simp only [stageRetrans, hr] at h ⊢
    exact stageMountAttach_exited env port pipe fac tr c htr h
  · rcases hv : parseRetransMs s with _ | v
    · intro n
      simp only [stageRetrans, hr, hv]
      exact htr n
    · simp only [stageRetrans, hr, hv] at h ⊢
      refine stageMountAttach_exited env port pipe _ _ c ?_ h
      intro n
      simp [List.mem_append]
      exact htr n

theorem stageProfiles_exited (env : Env) (port pipe : List Char)
    (fac : Factory) (tr : List Event) (c : Int)
    (htr : ∀ n, Event.reaperScheduled n ∉ tr)
    (h : (stageProfiles env port pipe fac tr).2 = MainOutcome.exited c) :
    ∀ n, Event.reaperScheduled n ∉ (stageProfiles env port pipe fac tr).1 := by
  rcases hp : env.profArg with _ | s
  · simp only [stageProfiles, hp] at h ⊢
    exact stageRetrans_exited env port pipe fac tr c htr h
  · rcases hps : parseProfiles s with _ | m
    · intro n
      simp only [stageProfiles, hp, hps]
      exact htr n
    · simp only [stageProfiles, hp, hps] at h ⊢
      refine stageRetrans_exited env port pipe _ _ c ?_ h
      intro n
      simp [List.mem_append]
      exact htr n

theorem runMain_exited_no_reaper (env : Env) (c : Int)
    (h : (runMain env).2 = MainOutcome.exited c) :
    ∀ n, Event.reaperScheduled n ∉ (runMain env).1 := by
  cases hcli : env.cliOk
  · intro n
    simp [runMain, hcli]
  · rcases hp : env.pipeline with _ | p
    · intro n
      simp [runMain, hcli, hp]
    · simp only [runMain, hcli, hp, if_true] at h ⊢
      refine stageProfiles_exited env _ p _ _ c ?_ h
      intro n
      simp

/-- C8: the 5-second session reaper is scheduled only after a successful
attach (in every running outcome the trace ends with attach, then the
5-second scheduling, then the readiness print; in every exited outcome no
scheduling step occurs), and every invocation of the timeout callback
cleans up the session pool and returns true, so it always reschedules. -/
theorem claim8_session_reaper :
    (∀ env st, (runMain env).2 = MainOutcome.running st →
      st.reaperIntervalSec = 5 ∧
      ∃ pre, (runMain env).1 = pre ++ [Event.attached, Event.reaperScheduled 5,
        Event.readyPrinted st.readyMsg]) ∧
    (∀ env c, (runMain env).2 = MainOutcome.exited c →
      ∀ n, Event.reaperScheduled n ∉ (runMain env).1) ∧
    (∀ now pool, timeout now pool = (sessionPoolCleanup now pool, true)) :=
  ⟨runMain_running, runMain_exited_no_reaper, fun _ _ => rfl⟩

theorem claim8_witness :
    ((ServerState.mk defaultPort
        [(defaultMount, Factory.mk none none (some (chars "v")) true)]
        (readyMsg defaultPort defaultMount) 5).reaperIntervalSec = 5 ∧
      ∃ pre, (runMain (Env.mk true none none none none (some (chars "v")) true)).1 =
        pre ++ [Event.attached, Event.reaperScheduled 5,
          Event.readyPrinted (ServerState.mk defaultPort
            [(defaultMount, Factory.mk none none (some (chars "v")) true)]
            (readyMsg defaultPort defaultMount) 5).readyMsg]) ∧
    timeout 7 (SessionPool.mk [(1, 3), (2, 9)]) =
      (sessionPoolCleanup 7 (SessionPool.mk [(1, 3), (2, 9)]), true) :=
  ⟨claim8_session_reaper.1 (Env.mk true none none none none (some (chars "v")) true)
      (ServerState.mk defaultPort
        [(defaultMount, Factory.mk none none (some (chars "v")) true)]
        (readyMsg defaultPort defaultMount) 5) (by decide),
    claim8_session_reaper.2.2 7 (SessionPool.mk [(1, 3), (2, 9)])⟩

/-- C3: evaluating the code at --port 9000 --endpoint cam1
--rtsp-profiles AVP+SAVP --retransmission-time 150 with the example
pipeline.  Because the endpoint option's storage address in the
GOptionEntry table is &mount+1 — one pointer past the mount variable — the
parsed value never lands in mount, so the single mount path stays /video
and the readiness message reads .../9000/video, not the /cam1 the claim
(and the option's own help text) promise. -/
theorem claim3_endpoint_bug :
    mountPathsOf (runMain (Env.mk true (some (chars "9000"))
      (some (chars "cam1")) (some (chars "AVP+SAVP")) (some (chars "150"))
      (some (chars "videotestsrc ! x264enc ! rtph264pay name=pay0 pt=96"))
      true)).2 = [chars "/video"] ∧
    readyMsgOf (runMain (Env.mk true (some (chars "9000"))
      (some (chars "cam1")) (some (chars "AVP+SAVP")) (some (chars "150"))
      (some (chars "videotestsrc ! x264enc ! rtph264pay name=pay0 pt=96"))
      true)).2 = some (chars "Stream ready at rtsp://127.0.0.1:9000/video") ∧
    chars "/video" ≠ chars "/cam1" := by
  refine ⟨by decide, by decide, by decide⟩

/-- C2 counterexample: the claim says only pure digit strings are
accepted, yet "+200" — which contains a sign and is not a pure digit
string — is accepted with value 200, because strtoull with base 0 consumes
an optional sign (and also leading whitespace and 0x/0 base markers)
before the digits. -/
theorem claim2_counterexample :
    parseRetransMs (chars "+200") = some 200 ∧
    ¬(∀ c ∈ chars "+200", isdigitC c = true) := by
  constructor
  · decide
  · decide

/-- C2 amended: duration parsing fails exactly when strtoull (base 0)
consumes no digits or leaves a character behind; a nonempty pure
decimal-digit string with no leading zero is accepted with its decimal
value, "200" gives 200 ms, "200ms" and "" are DurationSyntaxErrors and any
trailing character is rejected, but the accepted prefix additionally
allows leading whitespace, a sign, and 0x/0 base markers, so acceptance is
not limited to pure digit strings ("+200" parses to 200). -/
theorem claim2_amended_duration :
    (∀ ds, ds ≠ [] → (∀ c ∈ ds, isdigitC c = true) →
      (ds.headD ' ').toNat ≠ 48 → digitsToNat ds < U64 →
      parseRetransMs ds = some (digitsToNat ds)) ∧
    parseRetransMs (chars "200") = some 200 ∧
    parseRetransMs (chars "200ms") = none ∧
    parseRetransMs [] = none ∧
    parseRetransMs (chars "+200") = some 200 := by
  refine ⟨parseRetransMs_decimal, by decide, by decide, by decide, by decide⟩

theorem claim2_witness :
    parseRetransMs (chars "157") = some (digitsToNat (chars "157")) :=
  claim2_amended_duration.1 (chars "157") (by decide) (by decide)
    (by decide) (by decide)
